import Mathlib

/-!
Verification development for the Reformed theology Q&A app (src/app.py).

The repository is a single Streamlit page.  The part the claims are about is
the result-extraction logic in `main` (src/app.py lines 130-144):

  results = run_theology_search(user_question)
  with st.expander("Raw CrewOutput"): st.write(results)
  if results:
      final_answer = getattr(results, 'raw', getattr(results, 'result', str(results)))
      if final_answer:
          st.success(...); st.write(final_answer)
      else:
          st.warning("Could not find text output ...")
  else:
      st.warning("No response generated ...")

together with the try/except wrapper `run_theology_search` (lines 110-119),
the key check in `create_theology_crew` (lines 47-52) and the module-level
secrets wiring (lines 10-18).

We embed the Python values the code introspects as an inductive type `PyVal`
recording exactly the surface the code touches: attribute lookup
(`getattr` with a default), truthiness (`if results:`), and `str()` coercion.
-/

/-- A Python value as seen by the extraction code: `None`, a string, a
sequence (list), or an object carrying named attributes together with the
string its `str()` coercion produces.  Plain objects (such as CrewOutput)
are always truthy in Python and their `str()` is some non-structural
rendering, which the embedding carries as the `strRepr` field. -/
inductive PyVal where
  | none : PyVal
  | str : String → PyVal
  | list : List PyVal → PyVal
  | obj : List (String × PyVal) → String → PyVal

/-- Python truthiness: `None` is falsy, a string is truthy iff non-empty, a
list is truthy iff non-empty, a plain object is always truthy. -/
def pyTruthy : PyVal → Bool
  | .none => false
  | .str s => !(s == "")
  | .list xs => !xs.isEmpty
  | .obj _ _ => true

mutual

/-- Python `repr` restricted to the modelled values: `None` prints as
`None`, a string is wrapped in single quotes, a list shows the reprs of its
elements in brackets, and an object shows its carried rendering. -/
def pyRepr : PyVal → String
  | .none => "None"
  | .str s => "\x27" ++ s ++ "\x27"
  | .list xs => "[" ++ String.intercalate ", " (pyReprList xs) ++ "]"
  | .obj _ r => r

/-- Reprs of the elements of a list value. -/
def pyReprList : List PyVal → List String
  | [] => []
  | x :: xs => pyRepr x :: pyReprList xs

end

/-- Python `str()` coercion on the modelled values.  `str` of a list uses
the reprs of the elements, as CPython does. -/
def pyStr : PyVal → String
  | .none => "None"
  | .str s => s
  | .list xs => "[" ++ String.intercalate ", " (pyReprList xs) ++ "]"
  | .obj _ r => r

/-- Python `getattr(v, name, default)`: look the attribute up on an object;
on any value without that attribute (strings, lists, `None`, objects lacking
it) return the default.  With a default supplied, `getattr` does not raise. -/
def getattrD (v : PyVal) (name : String) (d : PyVal) : PyVal :=
  match v with
  | .obj attrs _ => (attrs.lookup name).getD d
  | _ => d

/-- The extraction expression of src/app.py line 137:
`getattr(results, 'raw', getattr(results, 'result', str(results)))`. -/
def extractFinalAnswer (results : PyVal) : PyVal :=
  getattrD results "raw" (getattrD results "result" (.str (pyStr results)))

/-- Status line of the success branch (src/app.py line 139). -/
def successMsg : String := "✅ Response generated!"

/-- Status line of the shape-mismatch branch (src/app.py line 142). -/
def shapeMismatchMsg : String := "⚠️ Could not find text output in CrewOutput. Check Raw CrewOutput above."

/-- Status line of the no-response branch (src/app.py line 144). -/
def noResponseMsg : String := "⚠️ No response generated. Please try again or refine your question."

/-- What the UI does with one `results` value: the raw debug panel content,
the status line shown, the value written as the answer (if any), and whether
the attribute-probing expression of line 137 was evaluated at all. -/
structure RenderResult where
  rawPanel : PyVal
  statusLine : String
  displayed : Option PyVal
  extractionAttempted : Bool

/-- The rendering logic of `main`, src/app.py lines 132-144: the expander
always shows `results` verbatim; then `if results:` branches on truthiness;
in the truthy branch `final_answer` is extracted by line 137 and branched on
its own truthiness; the falsy branch shows the no-response warning without
touching line 137. -/
def mainRender (results : PyVal) : RenderResult :=
  if pyTruthy results then
    let final_answer := extractFinalAnswer results
    if pyTruthy final_answer then
      ⟨results, successMsg, some final_answer, true⟩
    else
      ⟨results, shapeMismatchMsg, none, true⟩
  else
    ⟨results, noResponseMsg, none, false⟩

/-!
An exception-aware rendering of the same code path.  Each Python primitive
the extraction evaluates is given its faithful raising behaviour: truthiness
of `None`/strings/lists/plain objects never raises, `getattr` with a default
supplied never raises, and `str()` of the modelled values never raises.  The
pipeline below strings them together in the exception monad exactly along
the control flow of lines 132-144, so that "the extraction never raises" is
the statement that this pipeline always returns `Except.ok`.
-/

/-- Truthiness test in the exception monad: total on the modelled values. -/
def pyTruthyE (v : PyVal) : Except String Bool := .ok (pyTruthy v)

/-- Coercion `str(v)` in the exception monad: total on the modelled values. -/
def pyStrE (v : PyVal) : Except String String := .ok (pyStr v)

/-- Attribute probe `getattr(v, name, d)` in the exception monad: with a
default supplied, `getattr` never raises. -/
def getattrDE (v : PyVal) (name : String) (d : PyVal) : Except String PyVal :=
  .ok (getattrD v name d)

/-- The rendering logic of lines 132-144 written step by step in the
exception monad, evaluating the inner `getattr` default first as Python
does. -/
def mainRenderE (results : PyVal) : Except String RenderResult := do
  let truthy ← pyTruthyE results
  if truthy then
    let sr ← pyStrE results
    let inner ← getattrDE results "result" (.str sr)
    let final_answer ← getattrDE results "raw" inner
    let faTruthy ← pyTruthyE final_answer
    if faTruthy then
      pure ⟨results, successMsg, some final_answer, true⟩
    else
      pure ⟨results, shapeMismatchMsg, none, true⟩
  else
    pure ⟨results, noResponseMsg, none, false⟩

/-!
A state-threading rendering of line 137 alone, used to state purity: each
primitive receives and returns the ambient event trace (UI writes, log
lines), so that "no side effects" is the statement that the trace comes back
unchanged and a second evaluation on the same input gives the same value.
-/

/-- Attribute probe threaded through an event trace; reading a plain data
attribute emits no event and changes no state. -/
def getattrDW (v : PyVal) (name : String) (d : PyVal) (w : List String) :
    PyVal × List String :=
  (getattrD v name d, w)

/-- Coercion `str(v)` threaded through an event trace; it emits no event. -/
def pyStrW (v : PyVal) (w : List String) : String × List String :=
  (pyStr v, w)

/-- Line 137 with the event trace threaded through every primitive, inner
default first. -/
def extractFinalAnswerW (results : PyVal) (w : List String) :
    PyVal × List String :=
  let (sr, w1) := pyStrW results w
  let (inner, w2) := getattrDW results "result" (.str sr) w1
  getattrDW results "raw" inner w2

/-!
The boundary wrapper (src/app.py lines 110-119) and its callees.  The
environment is a key-value list (later bindings shadowed by consing in
front, as assignment to `os.environ` overwrites).  The externals —
constructing the LLM/tool/agent/task/crew objects, and `crew.kickoff()` —
are parameters of type `Except`, covering both a returned value and any
raised exception.
-/

/-- Message of the `ValueError` raised at src/app.py line 52. -/
def missingKeysErr : String := "Missing API keys in environment variables."

/-- Truthiness of `os.environ.get(key)`: falsy when the key is absent
(`None`) or bound to the empty string. -/
def envTruthy (env : List (String × String)) (key : String) : Bool :=
  match env.lookup key with
  | some v => !(v == "")
  | none => false

/-- The `create_theology_crew` function, src/app.py lines 47-108: read both
keys from the environment; if either is falsy raise `ValueError`; otherwise
run the external constructions (LLM, search tool, agent, task, crew), whose
outcome is the `construct` parameter. -/
def create_theology_crew (env : List (String × String))
    (construct : Except String Unit) : Except String Unit :=
  if !envTruthy env "OPENAI_API_KEY" || !envTruthy env "SERPER_API_KEY" then
    .error missingKeysErr
  else
    construct

/-- Outcome of one call to the wrapper: the value it returns to `main`
(`None` is `Option.none`), whether `crew.kickoff()` was reached, and the
log lines written. -/
structure SearchOutcome where
  value : Option PyVal
  kickoffAttempted : Bool
  logLines : List String

/-- The `run_theology_search` wrapper, src/app.py lines 110-119: log the
start, build the crew, run `kickoff` (the `kickoff` parameter is the
external call, returning a result or raising), log completion; any
exception from either step is caught, logged, and turned into `None`. -/
def run_theology_search (env : List (String × String))
    (construct : Except String Unit) (kickoff : Except String PyVal) :
    SearchOutcome :=
  match create_theology_crew env construct with
  | .error e =>
      ⟨none, false,
        ["INFO: Initiating theological query",
         "ERROR: Error during theological search: " ++ e]⟩
  | .ok _ =>
      match kickoff with
      | .ok r =>
          ⟨some r, true,
            ["INFO: Initiating theological query",
             "INFO: Theological query completed"]⟩
      | .error e =>
          ⟨none, true,
            ["INFO: Initiating theological query",
             "ERROR: Error during theological search: " ++ e]⟩

/-!
The module-level secrets wiring, src/app.py lines 10-18: for each of the two
keys, if it is present in `st.secrets` copy it into `os.environ`, otherwise
show a user-visible configuration error.
-/

/-- Error shown at src/app.py line 13. -/
def openaiErrMsg : String := "OpenAI API key not found in secrets."

/-- Error shown at src/app.py line 18. -/
def serperErrMsg : String := "Serper Dev API key not found in secrets."

/-- One `if key in st.secrets: os.environ[key] = st.secrets[key] else:
st.error(msg)` step, acting on an accumulated (environment, shown errors)
pair. -/
def applySecret (secrets : List (String × String)) (key errMsg : String)
    (acc : List (String × String) × List String) :
    List (String × String) × List String :=
  match secrets.lookup key with
  | some v => ((key, v) :: acc.1, acc.2)
  | none => (acc.1, acc.2 ++ [errMsg])

/-- The whole secrets block, lines 10-18, run over an initial process
environment: returns the resulting environment and the configuration errors
shown to the user. -/
def secretsSetup (secrets env0 : List (String × String)) :
    List (String × String) × List String :=
  applySecret secrets "SERPER_API_KEY" serperErrMsg
    (applySecret secrets "OPENAI_API_KEY" openaiErrMsg (env0, []))

/-- A string of the form `[` ++ m ++ `]` is never empty. -/
theorem bracketed_ne_empty (m : String) : ("[" ++ m ++ "]") ≠ "" := by
  intro h
  have hl := congrArg String.length h
  simp [String.length_append] at hl
  exact absurd hl.1.1 (by decide)

/-- C1.  Claimed: a RawResult whose `tasks_output` is non-empty and whose
first element has `raw = "  Justification is by faith alone. "` yields the
trimmed string as the DisplayAnswer.  On the code this fails: line 137 never
looks inside `tasks_output` and never trims; for this object it displays the
`str()` coercion of the whole object instead of the trimmed answer. -/
theorem scenarioA_not_trimmed :
    (mainRender (.obj [("tasks_output",
        .list [.obj [("raw", .str "  Justification is by faith alone. ")]
          "task-output-item"])] "crew-output-object")).displayed =
      some (.str "crew-output-object") ∧
    (mainRender (.obj [("tasks_output",
        .list [.obj [("raw", .str "  Justification is by faith alone. ")]
          "task-output-item"])] "crew-output-object")).displayed ≠
      some (.str "Justification is by faith alone.") := by
  refine ⟨rfl, fun h => ?_⟩
  have h1 : PyVal.str "crew-output-object" =
      PyVal.str "Justification is by faith alone." := by
    injection h
  injection h1 with h2
  exact absurd h2 (by decide)

/-- C1 (amended).  On an object RawResult that carries no `raw` and no
`result` attribute of its own — in particular one whose only field is a
`tasks_output` collection — line 137 returns `str(results)` untrimmed, and
when that coercion is non-empty it is displayed as the answer with the
success status; the per-task collection is never probed. -/
theorem extraction_ignores_tasks_output (attrs : List (String × PyVal))
    (strRepr : String)
    (hraw : attrs.lookup "raw" = none) (hres : attrs.lookup "result" = none)
    (hnz : strRepr ≠ "") :
    mainRender (.obj attrs strRepr) =
      ⟨.obj attrs strRepr, successMsg, some (.str strRepr), true⟩ := by
  unfold mainRender extractFinalAnswer getattrD
  simp [pyTruthy, pyStr, hraw, hres, hnz]

/-- C1 (amended) at the scenario-A input: hypotheses hold and the displayed
answer is the coercion of the whole object, not the element's `raw`. -/
theorem extraction_ignores_tasks_output_witness :
    (([("tasks_output", PyVal.list [PyVal.obj
        [("raw", PyVal.str "  Justification is by faith alone. ")]
        "task-output-item"])].lookup "raw" = (none : Option PyVal)) ∧
     ([("tasks_output", PyVal.list [PyVal.obj
        [("raw", PyVal.str "  Justification is by faith alone. ")]
        "task-output-item"])].lookup "result" = (none : Option PyVal)) ∧
     "crew-output-object" ≠ "") ∧
    mainRender (.obj [("tasks_output", PyVal.list [PyVal.obj
        [("raw", PyVal.str "  Justification is by faith alone. ")]
        "task-output-item"])] "crew-output-object") =
      ⟨.obj [("tasks_output", PyVal.list [PyVal.obj
        [("raw", PyVal.str "  Justification is by faith alone. ")]
        "task-output-item"])] "crew-output-object", successMsg,
        some (.str "crew-output-object"), true⟩ :=
  ⟨⟨rfl, rfl, by decide⟩,
    extraction_ignores_tasks_output _ _ rfl rfl (by decide)⟩

/-- C2.  A RawResult object that directly exposes a non-empty string
attribute `raw` has that very string returned by line 137 and displayed with
the success status. -/
theorem direct_raw_attribute_returned (attrs : List (String × PyVal))
    (strRepr s : String)
    (hraw : attrs.lookup "raw" = some (.str s)) (hnz : s ≠ "") :
    mainRender (.obj attrs strRepr) =
      ⟨.obj attrs strRepr, successMsg, some (.str s), true⟩ := by
  unfold mainRender extractFinalAnswer getattrD
  simp [pyTruthy, hraw, hnz]

/-- C2 at the scenario-C input `raw = "Direct answer"`. -/
theorem direct_raw_attribute_returned_witness :
    (([("raw", PyVal.str "Direct answer")].lookup "raw" =
        some (PyVal.str "Direct answer")) ∧
     "Direct answer" ≠ "") ∧
    mainRender (.obj [("raw", PyVal.str "Direct answer")] "crew-output-object") =
      ⟨.obj [("raw", PyVal.str "Direct answer")] "crew-output-object",
        successMsg, some (.str "Direct answer"), true⟩ :=
  ⟨⟨rfl, by decide⟩,
    direct_raw_attribute_returned _ _ _ rfl (by decide)⟩

/-- C3.  Claimed: a non-empty sequence RawResult yields its first element
coerced to string.  On the code this fails: `getattr` finds no attribute on
a list, so line 137 returns `str()` of the whole list — the bracketed,
quoted rendering — not the first element. -/
theorem sequence_first_element_not_returned :
    (mainRender (.list [.str "Sequence answer"])).displayed =
      some (.str "[\x27Sequence answer\x27]") ∧
    (mainRender (.list [.str "Sequence answer"])).displayed ≠
      some (.str "Sequence answer") := by
  refine ⟨rfl, fun h => ?_⟩
  have h1 : PyVal.str "[\x27Sequence answer\x27]" = PyVal.str "Sequence answer" := by
    injection h
  injection h1 with h2
  exact absurd h2 (by decide)

/-- C3 (amended).  For every non-empty sequence RawResult, line 137 returns
the `str()` coercion of the whole sequence, which is non-empty and is
displayed with the success status. -/
theorem sequence_str_coercion_returned (x : PyVal) (xs : List PyVal) :
    mainRender (.list (x :: xs)) =
      ⟨.list (x :: xs), successMsg, some (.str (pyStr (.list (x :: xs)))), true⟩ := by
  unfold mainRender extractFinalAnswer getattrD
  simp [pyTruthy, pyStr, bracketed_ne_empty]

/-- C4.  Claimed: a RawResult whose only candidate attribute is empty or
whitespace-only yields absent, never a blank displayed answer.  On the code
this fails for whitespace: a whitespace-only string is truthy in Python, so
`raw = " "` is displayed as the answer with the success status. -/
theorem whitespace_raw_displayed :
    (mainRender (.obj [("raw", .str " ")] "crew-output-object")).displayed =
      some (.str " ") ∧
    (mainRender (.obj [("raw", .str " ")] "crew-output-object")).statusLine =
      successMsg :=
  ⟨rfl, rfl⟩

/-- C4 (amended).  Only the genuinely empty string is treated as no answer:
when the `raw` attribute holds `""`, line 137 returns it, the truthiness
test fails, and the shape-mismatch branch shows no answer; a whitespace-only
value, being truthy, is displayed as-is. -/
theorem empty_raw_yields_absent (attrs : List (String × PyVal))
    (strRepr : String) (hraw : attrs.lookup "raw" = some (.str "")) :
    mainRender (.obj attrs strRepr) =
      ⟨.obj attrs strRepr, shapeMismatchMsg, none, true⟩ := by
  unfold mainRender extractFinalAnswer getattrD
  simp [pyTruthy, hraw]

/-- C4 (amended) at the input whose only attribute is `raw = ""`. -/
theorem empty_raw_yields_absent_witness :
    ([("raw", PyVal.str "")].lookup "raw" = some (PyVal.str "")) ∧
    mainRender (.obj [("raw", PyVal.str "")] "crew-output-object") =
      ⟨.obj [("raw", PyVal.str "")] "crew-output-object",
        shapeMismatchMsg, none, true⟩ :=
  ⟨rfl, empty_raw_yields_absent _ _ rfl⟩

/-- C5.  Claimed: `RawResult = ⟨tasks_output = []⟩` with no other usable
field yields absent and the shape-mismatch warning.  On the code this
fails: the object is truthy, `getattr` finds neither `raw` nor `result`,
`str(results)` is non-empty, and the UI shows the success status with the
coerced object string as the answer — the shape-mismatch warning is a
different status line and is not shown. -/
theorem empty_tasks_output_shows_success :
    mainRender (.obj [("tasks_output", .list [])] "crew-output-object") =
      ⟨.obj [("tasks_output", .list [])] "crew-output-object", successMsg,
        some (.str "crew-output-object"), true⟩ ∧
    successMsg ≠ shapeMismatchMsg :=
  ⟨rfl, by decide⟩

/-- C5 (amended).  For an object whose only field is an empty `tasks_output`
collection, the raw object is still shown verbatim in the debug panel, but
the outcome is not absent: the `str()` coercion of the object is displayed
as the answer with the success status whenever it is non-empty. -/
theorem empty_tasks_output_render (strRepr : String) (hnz : strRepr ≠ "") :
    (mainRender (.obj [("tasks_output", .list [])] strRepr)).rawPanel =
      .obj [("tasks_output", .list [])] strRepr ∧
    mainRender (.obj [("tasks_output", .list [])] strRepr) =
      ⟨.obj [("tasks_output", .list [])] strRepr, successMsg,
        some (.str strRepr), true⟩ := by
  refine ⟨?_, ?_⟩ <;>
    · unfold mainRender extractFinalAnswer getattrD
      simp [pyTruthy, pyStr, List.lookup, hnz]

/-- C5 (amended) at the scenario-E input. -/
theorem empty_tasks_output_render_witness :
    ("crew-output-object" ≠ "") ∧
    ((mainRender (.obj [("tasks_output", .list [])] "crew-output-object")).rawPanel =
      .obj [("tasks_output", .list [])] "crew-output-object" ∧
     mainRender (.obj [("tasks_output", .list [])] "crew-output-object") =
      ⟨.obj [("tasks_output", .list [])] "crew-output-object", successMsg,
        some (.str "crew-output-object"), true⟩) :=
  ⟨by decide, empty_tasks_output_render _ (by decide)⟩

/-- C6.  The extraction never raises: the step-by-step exception-monad
rendering of lines 132-144 returns `Except.ok` on every modelled RawResult,
and the absent input `None` takes the no-response branch, showing no
answer and attempting no attribute probe. -/
theorem extraction_never_raises :
    (∀ v : PyVal, mainRenderE v = .ok (mainRender v)) ∧
    mainRenderE PyVal.none = .ok ⟨PyVal.none, noResponseMsg, none, false⟩ := by
  constructor
  · intro v
    simp [mainRenderE, mainRender, pyTruthyE, pyStrE, getattrDE, extractFinalAnswer,
      Except.instMonad, Except.bind, Except.pure, apply_ite Except.ok]
  · rfl

/-- C7.  Whatever the external constructions and the orchestration call do
— return a value or raise — `run_theology_search` never propagates an
exception: it either hands back the kickoff result unchanged, or returns
`None` with the failure recorded in the log rather than surfaced. -/
theorem run_theology_search_never_propagates
    (env : List (String × String)) (construct : Except String Unit)
    (kickoff : Except String PyVal) :
    (∃ r, kickoff = .ok r ∧
      (run_theology_search env construct kickoff).value = some r) ∨
    ((run_theology_search env construct kickoff).value = none ∧
      ∃ e, ("ERROR: Error during theological search: " ++ e) ∈
        (run_theology_search env construct kickoff).logLines) := by
  unfold run_theology_search
  cases create_theology_crew env construct with
  | error e => exact Or.inr ⟨rfl, e, by simp⟩
  | ok u =>
      cases kickoff with
      | ok r => exact Or.inl ⟨r, rfl, rfl⟩
      | error e => exact Or.inr ⟨rfl, e, by simp⟩

/-- C8.  On a process whose initial environment carries neither key, if
either secret is missing from `st.secrets`, the module-level wiring shows
the corresponding configuration error, and any later button press has
`create_theology_crew` raise before `crew.kickoff()` — the orchestration
call is never attempted, whatever the externals would have done. -/
theorem missing_secret_blocks_query
    (secrets env0 : List (String × String)) (construct : Except String Unit)
    (kickoff : Except String PyVal)
    (h0 : env0.lookup "OPENAI_API_KEY" = none)
    (h1 : env0.lookup "SERPER_API_KEY" = none)
    (hmiss : secrets.lookup "OPENAI_API_KEY" = none ∨
      secrets.lookup "SERPER_API_KEY" = none) :
    (openaiErrMsg ∈ (secretsSetup secrets env0).2 ∨
      serperErrMsg ∈ (secretsSetup secrets env0).2) ∧
    (run_theology_search (secretsSetup secrets env0).1 construct
      kickoff).kickoffAttempted = false := by
  rcases hmiss with hm | hm
  · cases hs : secrets.lookup "SERPER_API_KEY" <;>
      · constructor
        · exact Or.inl (by simp [secretsSetup, applySecret, hm, hs])
        · simp [secretsSetup, applySecret, hm, hs, run_theology_search,
            create_theology_crew, envTruthy, List.lookup, h0]
  · cases ho : secrets.lookup "OPENAI_API_KEY" <;>
      · constructor
        · exact Or.inr (by simp [secretsSetup, applySecret, hm, ho])
        · simp [secretsSetup, applySecret, hm, ho, run_theology_search,
            create_theology_crew, envTruthy, List.lookup, h0, h1]

/-- C8 at the concrete configuration with no secrets at all. -/
theorem missing_secret_blocks_query_witness :
    (([] : List (String × String)).lookup "OPENAI_API_KEY" = none ∧
     ([] : List (String × String)).lookup "SERPER_API_KEY" = none ∧
     (([] : List (String × String)).lookup "OPENAI_API_KEY" = none ∨
      ([] : List (String × String)).lookup "SERPER_API_KEY" = none)) ∧
    ((openaiErrMsg ∈ (secretsSetup [] []).2 ∨
      serperErrMsg ∈ (secretsSetup [] []).2) ∧
     (run_theology_search (secretsSetup [] []).1 (.ok ())
       (.ok (.str "answer"))).kickoffAttempted = false) :=
  ⟨⟨rfl, rfl, Or.inl rfl⟩,
    missing_secret_blocks_query [] [] (.ok ()) (.ok (.str "answer"))
      rfl rfl (Or.inl rfl)⟩

/-- C9.  The extraction of line 137 is pure and deterministic: threading the
ambient event trace through every primitive it evaluates returns the trace
unchanged and the same value as the untraced function, and evaluating it a
second time on the same RawResult gives the same value. -/
theorem extraction_pure (v : PyVal) (w : List String) :
    extractFinalAnswerW v w = (extractFinalAnswer v, w) ∧
    (extractFinalAnswerW v (extractFinalAnswerW v w).2).1 =
      (extractFinalAnswerW v w).1 :=
  ⟨rfl, rfl⟩

/-- C10.  `main` distinguishes the two warnings only by the truthiness of
`results`: every falsy RawResult other than `None` — an empty list, an
empty string — takes the no-response branch, so the user sees the
orchestration-failure message, not the shape-mismatch warning, and the
attribute probe of line 137 is never evaluated. -/
theorem falsy_result_shows_no_response (v : PyVal)
    (_hne : v ≠ PyVal.none) (hf : pyTruthy v = false) :
    mainRender v = ⟨v, noResponseMsg, none, false⟩ ∧
    noResponseMsg ≠ shapeMismatchMsg := by
  constructor
  · unfold mainRender
    simp [hf]
  · decide

/-- C10 at the falsy non-`None` input: the empty list. -/
theorem falsy_result_shows_no_response_witness :
    (PyVal.list [] ≠ PyVal.none ∧ pyTruthy (PyVal.list []) = false) ∧
    (mainRender (PyVal.list []) =
      ⟨PyVal.list [], noResponseMsg, none, false⟩ ∧
     noResponseMsg ≠ shapeMismatchMsg) :=
  ⟨⟨fun h => PyVal.noConfusion h, rfl⟩,
    falsy_result_shows_no_response (PyVal.list [])
      (fun h => PyVal.noConfusion h) rfl⟩
